import Mathlib

/-!
Verification of the job-orchestration and webhook-delivery core of the
booking-automation backend.  Definitions are shallow embeddings of the
Python source files under `app/`: machine-level details (HTTP transport,
Redis connections, asyncio scheduling) are abstracted into explicit state
passing, while the branching logic of each embedded function follows the
source line by line.
-/

/-- Job status values (`app/models.py`, `class JobStatus`).  The constructor
order follows the forward order of the job state machine, with the two
non-forward terminal statuses last. -/
inductive JobStatus where
  | pending
  | running
  | qrWaiting
  | authenticating
  | configuring
  | searching
  | booking
  | completed
  | failed
  | cancelled
deriving DecidableEq, Repr

/-- The string value each status serializes to (`app/models.py`). -/
def JobStatus.value : JobStatus → String
  | .pending => "pending"
  | .running => "running"
  | .qrWaiting => "qr_waiting"
  | .authenticating => "authenticating"
  | .configuring => "configuring"
  | .searching => "searching"
  | .booking => "booking"
  | .completed => "completed"
  | .failed => "failed"
  | .cancelled => "cancelled"

/-- `app/workers/booking_worker.py`, `_calculate_progress`: the fixed
status-to-progress table (`progress_map`); statuses outside the table
default to 0, which in the source is the `get(status, 0)` fallback. -/
def calculateProgress : JobStatus → Nat
  | .pending => 0
  | .running => 10
  | .qrWaiting => 25
  | .authenticating => 40
  | .configuring => 60
  | .searching => 75
  | .booking => 90
  | .completed => 100
  | .failed => 0
  | .cancelled => 0

/-- The forward order of the job state machine (spec section 4.1):
PENDING, RUNNING, QR_WAITING, AUTHENTICATING, CONFIGURING, SEARCHING,
BOOKING, COMPLETED. -/
def forwardOrder : List JobStatus :=
  [.pending, .running, .qrWaiting, .authenticating, .configuring,
   .searching, .booking, .completed]

/-- An HTTP-level error produced by raising `HTTPException(status_code, detail)`. -/
structure HttpError where
  statusCode : Nat
  detail : String
deriving DecidableEq, Repr

/-- `app/main.py`, `start_booking` (admission-control part): if the Celery
active-task count is at least `settings.MAX_CONCURRENT_JOBS` the request is
rejected with a 503 `HTTPException`; otherwise the job is submitted with
`apply_async` (modelled as appending the job id to the queue) and the job id
is returned. -/
def startBooking (activeCount cap : Nat) (jobId : String) (queue : List String) :
    Except HttpError (String × List String) :=
  if activeCount ≥ cap then
    .error ⟨503, "Server at capacity. Please try again later."⟩
  else
    .ok (jobId, queue ++ [jobId])

/-- The active-job count after one `start_booking` call: an admitted job adds
one active job; a rejected submission leaves the count unchanged. -/
def activeCountAfterSubmit (activeCount cap : Nat) : Nat :=
  match startBooking activeCount cap "job" [] with
  | .ok _ => activeCount + 1
  | .error _ => activeCount

/-- `app/main_production.py`, `start_booking`: the required request fields
checked before admission. -/
def requiredFieldsProd : List String :=
  ["user_id", "license_type", "exam_type", "locations"]

/-- `app/main_production.py`, `start_booking`: rejects with 400 on the first
missing required field; rejects with 503 when `len(active_jobs) >= 10`
(the cap is the literal 10 in this variant); otherwise records the new job
in `active_jobs`.  The request is modelled by the set of field names present. -/
def startBookingProd (request : List String) (activeJobs : List String)
    (jobId : String) : Except HttpError (List String) :=
  match requiredFieldsProd.find? (fun f => !(request.contains f)) with
  | some f => .error ⟨400, "Missing required field: " ++ f⟩
  | none =>
    if activeJobs.length ≥ 10 then
      .error ⟨503, "Server at capacity. Please try again later."⟩
    else
      .ok (activeJobs ++ [jobId])

/-- A stored job record as read back by the status endpoint
(the JSON persisted by `JobManager.save_job_state`). -/
structure JobRecord where
  jobId : String
  userId : String
  status : JobStatus
  progress : Nat
  message : String
  startedAt : Int
  updatedAt : Int
deriving DecidableEq, Repr

/-- Lookup of `job:{job_id}` in the State Store (`JobManager.get_job_state`). -/
def lookupJob (store : List (String × JobRecord)) (jobId : String) :
    Option JobRecord :=
  (store.find? (fun kv => kv.1 == jobId)).map (fun kv => kv.2)

/-- `app/main.py`, `get_job_status`: a missing record raises a 404
`HTTPException` with detail "Job not found"; an existing record is returned. -/
def getJobStatus (store : List (String × JobRecord)) (jobId : String) :
    Except HttpError JobRecord :=
  match lookupJob store jobId with
  | none => .error ⟨404, "Job not found"⟩
  | some r => .ok r

/-- The response shape of `app/main_production.py`, `get_job_status`. -/
structure ProdStatusResponse where
  jobId : String
  status : String
  message : String
  isActive : Bool
deriving DecidableEq, Repr

/-- `app/main_production.py`, `get_job_status`: if Redis holds data under
`job:{job_id}` it is returned (with `is_active` added); otherwise the
endpoint returns a default record with status "unknown" and message
"Job not found or expired" — it never raises a 404. -/
def getJobStatusProd (store : List (String × ProdStatusResponse))
    (activeJobs : List String) (jobId : String) : ProdStatusResponse :=
  match (store.find? (fun kv => kv.1 == jobId)).map (fun kv => kv.2) with
  | some r => { r with isActive := activeJobs.contains jobId }
  | none =>
    { jobId := jobId
      status := "unknown"
      message := "Job not found or expired"
      isActive := activeJobs.contains jobId }

/-- C9: the progress percentage is the fixed table PENDING=0, RUNNING=10,
QR_WAITING=25, AUTHENTICATING=40, CONFIGURING=60, SEARCHING=75, BOOKING=90,
COMPLETED=100, and the mapping is monotonically non-decreasing along the
forward state-machine order. -/
theorem C9_progress_table :
    (forwardOrder.map calculateProgress = [0, 10, 25, 40, 60, 75, 90, 100]) ∧
    List.Chain' (· ≤ ·) (forwardOrder.map calculateProgress) := by
  constructor
  · rfl
  · rw [show forwardOrder.map calculateProgress = [0, 10, 25, 40, 60, 75, 90, 100] from rfl]
    simp [List.chain'_cons]

/-- C1: submission is rejected with a 503 AdmissionError whenever the active
job count is at least the concurrency cap; a submission at count at most
cap − 1 is admitted (job id returned, execution enqueued); hence the active
count never exceeds the cap.  Both `app/main.py` (cap =
`MAX_CONCURRENT_JOBS`) and `app/main_production.py` (cap = 10, for a
structurally valid request) enforce this. -/
theorem C1_admission_cap :
    (∀ n cap jid q, cap ≤ n →
      startBooking n cap jid q =
        .error ⟨503, "Server at capacity. Please try again later."⟩) ∧
    (∀ n cap jid q, n + 1 ≤ cap →
      startBooking n cap jid q = .ok (jid, q ++ [jid])) ∧
    (∀ n cap, n ≤ cap → activeCountAfterSubmit n cap ≤ cap) ∧
    (∀ req jobs jid, (∀ f ∈ requiredFieldsProd, f ∈ req) →
      10 ≤ jobs.length →
      startBookingProd req jobs jid =
        .error ⟨503, "Server at capacity. Please try again later."⟩) ∧
    (∀ req jobs jid, (∀ f ∈ requiredFieldsProd, f ∈ req) →
      jobs.length + 1 ≤ 10 →
      startBookingProd req jobs jid = .ok (jobs ++ [jid])) := by
  have hfind : ∀ req : List String,
      (∀ f ∈ requiredFieldsProd, f ∈ req) →
      requiredFieldsProd.find? (fun f => !(req.contains f)) = none := by
    intro req h
    rw [List.find?_eq_none]
    intro f hf
    simp only [Bool.not_eq_true', Bool.not_eq_false]
    exact List.elem_eq_true_of_mem (h f hf)
  refine ⟨?_, ?_, ?_, ?_, ?_⟩
  · intro n cap jid q h
    simp [startBooking, h]
  · intro n cap jid q h
    simp [startBooking, Nat.not_le.mpr h, Nat.lt_of_succ_le h]
  · intro n cap h
    by_cases hc : cap ≤ n
    · simp [activeCountAfterSubmit, startBooking, hc]
      exact h
    · simp [activeCountAfterSubmit, startBooking, hc]
      omega
  · intro req jobs jid hreq hlen
    unfold startBookingProd
    rw [hfind req hreq]
    simp [hlen]
  · intro req jobs jid hreq hlen
    unfold startBookingProd
    rw [hfind req hreq]
    simp [Nat.not_le.mpr hlen, Nat.lt_of_succ_le hlen]

/-- Witness for C1 at concrete inputs: at the cap (2 active, cap 2) the call
is rejected with 503; below the cap (1 active, cap 2) it is admitted; the
production variant behaves identically with its hard cap of 10. -/
theorem C1_admission_cap_witness :
    startBooking 2 2 "j1" [] =
      .error ⟨503, "Server at capacity. Please try again later."⟩ ∧
    startBooking 1 2 "j1" [] = .ok ("j1", ["j1"]) ∧
    activeCountAfterSubmit 1 2 ≤ 2 ∧
    startBookingProd ["user_id", "license_type", "exam_type", "locations"]
        ["a", "b", "c", "d", "e", "f", "g", "h", "i", "j"] "j1" =
      .error ⟨503, "Server at capacity. Please try again later."⟩ ∧
    startBookingProd ["user_id", "license_type", "exam_type", "locations"]
        [] "j1" = .ok ["j1"] := by
  refine ⟨?_, ?_, ?_, ?_, ?_⟩
  · exact C1_admission_cap.1 2 2 "j1" [] (by decide)
  · exact C1_admission_cap.2.1 1 2 "j1" [] (by decide)
  · exact C1_admission_cap.2.2.1 1 2 (by decide)
  · exact C1_admission_cap.2.2.2.1 _ _ "j1" (by simp [requiredFieldsProd]) (by decide)
  · exact C1_admission_cap.2.2.2.2 _ _ "j1" (by simp [requiredFieldsProd]) (by decide)

/-- C5 as stated is false on `app/main_production.py`: querying a job id with
no stored record there does not produce a 404 NotFound; it fabricates a
default record with status "unknown".  Concretely, with an empty store the
endpoint returns the default record. -/
theorem C5_counterexample :
    (List.find? (fun kv => kv.1 == "job_x")
        ([] : List (String × ProdStatusResponse))).map (fun kv => kv.2) = none ∧
    getJobStatusProd [] [] "job_x" =
      { jobId := "job_x"
        status := "unknown"
        message := "Job not found or expired"
        isActive := false } := by
  constructor
  · rfl
  · rfl

/-- C5 amended: `app/main.py` `get_job_status` yields a 404 NotFound error
for an unknown job id, but `app/main_production.py` `get_job_status` instead
returns a default record with status "unknown" and message
"Job not found or expired". -/
theorem C5_status_unknown_job :
    (∀ store jid, lookupJob store jid = none →
      getJobStatus store jid = .error ⟨404, "Job not found"⟩) ∧
    (∀ (store : List (String × ProdStatusResponse)) active jid,
      (store.find? (fun kv => kv.1 == jid)).map (fun kv => kv.2) = none →
      getJobStatusProd store active jid =
        { jobId := jid
          status := "unknown"
          message := "Job not found or expired"
          isActive := active.contains jid }) := by
  constructor
  · intro store jid h
    simp [getJobStatus, h]
  · intro store active jid h
    simp [getJobStatusProd, h]

/-- Witness for C5 amended at concrete inputs: the empty store yields the
404 error in `main.py` and the fabricated "unknown" record in
`main_production.py`. -/
theorem C5_status_unknown_job_witness :
    getJobStatus [] "job_x" = .error ⟨404, "Job not found"⟩ ∧
    getJobStatusProd [] ["job_x"] "job_x" =
      { jobId := "job_x"
        status := "unknown"
        message := "Job not found or expired"
        isActive := true } := by
  constructor
  · exact C5_status_unknown_job.1 [] "job_x" rfl
  · exact C5_status_unknown_job.2 [] ["job_x"] "job_x" rfl

/-- The job state stored under `job:{job_id}` as mutated by the worker
(`app/workers/booking_worker.py`). -/
structure JobState where
  userId : String
  status : JobStatus
  message : String
  cancellationReason : Option String
deriving DecidableEq, Repr

/-- The result dictionary returned by `cancel_booking_job`. -/
structure CancelResult where
  success : Bool
  error : Option String
  reason : Option String
deriving DecidableEq, Repr

/-- The mutable worker-side state touched by `cancel_booking_job`:
the Redis job store, the `active_sessions` registry, and the webhook
deliveries emitted so far (event type and message). -/
structure WorkerState where
  store : List (String × JobState)
  activeSessions : List String
  webhooksSent : List (String × String)
deriving DecidableEq, Repr

/-- Lookup of a job state in the worker store (`JobManager.get_job_state`). -/
def lookupState (store : List (String × JobState)) (jobId : String) :
    Option JobState :=
  (store.find? (fun kv => kv.1 == jobId)).map (fun kv => kv.2)

/-- A status is terminal when it is COMPLETED, FAILED or CANCELLED
(the list checked at the top of `cancel_booking_job`). -/
def isTerminal (s : JobStatus) : Bool :=
  s == .completed || s == .failed || s == .cancelled

/-- `app/workers/booking_worker.py`, `cancel_booking_job`: a missing record
returns a not-found error; a terminal status returns an already-final error;
otherwise the browser session is cleaned up and unregistered, the job state
is updated to CANCELLED with the cancellation reason recorded, and a final
`status_update` webhook is emitted. -/
def cancelBookingJob (st : WorkerState) (jobId reason : String) :
    CancelResult × WorkerState :=
  match lookupState st.store jobId with
  | none => ({ success := false, error := some "Job not found", reason := none }, st)
  | some js =>
    if isTerminal js.status then
      ({ success := false
         error := some ("Job already in final state: " ++ js.status.value)
         reason := none }, st)
    else
      let js' : JobState :=
        { js with
          status := .cancelled
          message := "Job cancelled: " ++ reason
          cancellationReason := some reason }
      ({ success := true, error := none, reason := some reason },
       { store := st.store.map (fun kv => if kv.1 = jobId then (kv.1, js') else kv)
         activeSessions := st.activeSessions.filter (fun j => j != jobId)
         webhooksSent :=
           st.webhooksSent ++ [("status_update", "Job cancelled: " ++ reason)] })

/-- Updating the store entry for a key rewrites exactly that entry's value
and leaves every other entry alone. -/
theorem lookupState_map_update (store : List (String × JobState))
    (jobId : String) (js' : JobState) :
    lookupState (store.map fun kv => if kv.1 = jobId then (kv.1, js') else kv)
        jobId = (lookupState store jobId).map (fun _ => js') := by
  induction store with
  | nil => rfl
  | cons kv rest ih =>
    by_cases h : kv.1 = jobId
    · simp [lookupState, List.find?_cons, h]
    · simp only [lookupState] at ih
      simp [lookupState, List.find?_cons, h, Function.comp] at ih ⊢
      exact ih

/-- C6: `cancel_booking_job` returns a not-found error when no job record
exists, returns an already-terminal error when the stored status is
COMPLETED, FAILED or CANCELLED — leaving the worker state unchanged in both
error cases — and otherwise marks the job CANCELLED, unregisters its
session, records the cancellation reason, and emits a final notification. -/
theorem C6_cancel_booking_job :
    (∀ st jobId reason, lookupState st.store jobId = none →
      cancelBookingJob st jobId reason =
        ({ success := false, error := some "Job not found", reason := none }, st)) ∧
    (∀ st jobId reason js, lookupState st.store jobId = some js →
      isTerminal js.status = true →
      cancelBookingJob st jobId reason =
        ({ success := false
           error := some ("Job already in final state: " ++ js.status.value)
           reason := none }, st)) ∧
    (∀ st jobId reason js, lookupState st.store jobId = some js →
      isTerminal js.status = false →
      (cancelBookingJob st jobId reason).1 =
        { success := true, error := none, reason := some reason } ∧
      lookupState (cancelBookingJob st jobId reason).2.store jobId =
        some { js with
               status := .cancelled
               message := "Job cancelled: " ++ reason
               cancellationReason := some reason } ∧
      jobId ∉ (cancelBookingJob st jobId reason).2.activeSessions ∧
      (cancelBookingJob st jobId reason).2.webhooksSent =
        st.webhooksSent ++ [("status_update", "Job cancelled: " ++ reason)]) := by
  refine ⟨?_, ?_, ?_⟩
  · intro st jobId reason h
    simp [cancelBookingJob, h]
  · intro st jobId reason js h hterm
    simp [cancelBookingJob, h, hterm]
  · intro st jobId reason js h hterm
    refine ⟨?_, ?_, ?_, ?_⟩
    · simp [cancelBookingJob, h, hterm]
    · simp only [cancelBookingJob, h, hterm, Bool.false_eq_true, if_false]
      rw [lookupState_map_update, h]
      rfl
    · simp [cancelBookingJob, h, hterm, List.mem_filter]
    · simp [cancelBookingJob, h, hterm]

/-- Witness for C6 at concrete inputs: an empty store yields not-found; a
completed job yields the already-final error with the state untouched; a
running job is cancelled, its session unregistered, its reason recorded and
a webhook emitted. -/
theorem C6_cancel_booking_job_witness :
    (cancelBookingJob ⟨[], [], []⟩ "j1" "user" =
      ({ success := false, error := some "Job not found", reason := none },
       ⟨[], [], []⟩)) ∧
    (cancelBookingJob
        ⟨[("j1", ⟨"u1", .completed, "done", none⟩)], [], []⟩ "j1" "user" =
      ({ success := false
         error := some "Job already in final state: completed"
         reason := none },
       ⟨[("j1", ⟨"u1", .completed, "done", none⟩)], [], []⟩)) ∧
    ((cancelBookingJob
        ⟨[("j1", ⟨"u1", .running, "going", none⟩)], ["j1"], []⟩ "j1" "user").1 =
      { success := true, error := none, reason := some "user" } ∧
     lookupState (cancelBookingJob
        ⟨[("j1", ⟨"u1", .running, "going", none⟩)], ["j1"], []⟩ "j1" "user").2.store
        "j1" = some ⟨"u1", .cancelled, "Job cancelled: user", some "user"⟩ ∧
     "j1" ∉ (cancelBookingJob
        ⟨[("j1", ⟨"u1", .running, "going", none⟩)], ["j1"], []⟩ "j1" "user").2.activeSessions ∧
     (cancelBookingJob
        ⟨[("j1", ⟨"u1", .running, "going", none⟩)], ["j1"], []⟩ "j1" "user").2.webhooksSent =
       [("status_update", "Job cancelled: user")]) := by
  refine ⟨?_, ?_, ?_⟩
  · exact C6_cancel_booking_job.1 ⟨[], [], []⟩ "j1" "user" rfl
  · exact C6_cancel_booking_job.2.1
      ⟨[("j1", ⟨"u1", .completed, "done", none⟩)], [], []⟩ "j1" "user"
      ⟨"u1", .completed, "done", none⟩ (by decide) rfl
  · exact C6_cancel_booking_job.2.2
      ⟨[("j1", ⟨"u1", .running, "going", none⟩)], ["j1"], []⟩ "j1" "user"
      ⟨"u1", .running, "going", none⟩ (by decide) rfl

/-- `app/automation/qr_capture.py`, `stream_qr_updates` (delivery logic of
one job's streaming loop): each iteration detects an optional QR payload;
a payload equal to `last_qr_data` (the most recently delivered content) is
suppressed, otherwise it is delivered via `_send_qr_update` and becomes the
new `last_qr_data`.  The function returns the ordered list of delivered
payloads for a run whose successive detections are `dets`. -/
def qrStream (last : Option String) : List (Option String) → List String
  | [] => []
  | det :: rest =>
    match det with
    | none => qrStream last rest
    | some qr =>
      if some qr = last then qrStream last rest
      else qr :: qrStream (some qr) rest

/-- After a delivery of `v`, no run ever starts by delivering `v` again:
the deliveries of a run with `last_qr_data = v` form a chain whose adjacent
elements differ and whose first element differs from `v`. -/
theorem qrStream_chain (dets : List (Option String)) :
    ∀ v, List.Chain (fun a b => a ≠ b) v (qrStream (some v) dets) := by
  induction dets with
  | nil => intro v; exact List.Chain.nil
  | cons det rest ih =>
    intro v
    match det with
    | none => exact ih v
    | some qr =>
      by_cases h : some qr = some v
      · simpa [qrStream, h] using ih v
      · have hne : qr ≠ v := fun hqv => h (congrArg some hqv)
        simpa [qrStream, h] using List.Chain.cons (fun hvq => hne hvq.symm) (ih qr)

/-- C7: within one job's QR streaming loop, a payload equal to the most
recently delivered content is suppressed — capturing identical content twice
in a row delivers exactly once — and the stream of delivered payloads never
contains the same content twice consecutively. -/
theorem C7_qr_dedup :
    (∀ d : String, qrStream none [some d, some d] = [d]) ∧
    (∀ dets, List.Chain' (fun a b => a ≠ b) (qrStream none dets)) := by
  constructor
  · intro d
    simp [qrStream]
  · intro dets
    induction dets with
    | nil => exact List.chain'_nil
    | cons det rest ih =>
      match det with
      | none => exact ih
      | some qr =>
        have : qrStream none (some qr :: rest) = qr :: qrStream (some qr) rest := by
          simp [qrStream]
        rw [this]
        exact qrStream_chain rest qr

/-- The `active_sessions` registry operations of
`app/workers/booking_worker.py` `JobManager`: `register_session` binds the
job id (a dict assignment, idempotent on the key set) and
`unregister_session` removes it (safe when absent). -/
def registerSession (sessions : List String) (jobId : String) : List String :=
  if sessions.contains jobId then sessions else sessions ++ [jobId]

/-- `JobManager.unregister_session`: removes the binding for the job id. -/
def unregisterSession (sessions : List String) (jobId : String) : List String :=
  sessions.filter (fun j => j != jobId)

/-- The possible outcomes of `driver.run_booking_automation()` as seen by
`process_booking_job`: success, one of the three expected automation error
classes, or an unexpected exception. -/
inductive AutomationOutcome where
  | success
  | browserError (msg : String)
  | authenticationError (msg : String)
  | bookingError (msg : String)
  | unexpectedError (msg : String)
deriving DecidableEq, Repr

/-- How `process_booking_job` leaves the Celery task: a returned result
dictionary (with its `success` and `retries_exhausted` flags) or a raised
`self.retry`. -/
inductive JobExit where
  | returned (success : Bool) (retriesExhausted : Bool)
  | raisedRetry
deriving DecidableEq, Repr

/-- The observable effect of one `process_booking_job` run. -/
structure ProcessResult where
  exit : JobExit
  finalStatus : JobStatus
  sessions : List String
  driverCleaned : Bool
deriving DecidableEq, Repr

/-- `app/workers/booking_worker.py`, `process_booking_job`: the session is
registered after the driver is built; the automation outcome selects the
success path (COMPLETED), the expected-error path (FAILED, no retry), or the
unexpected path (retry via `self.retry` while `retries < max_retries`, else
FAILED with `retries_exhausted`); the `finally` block then runs
`driver.cleanup()` and `JobManager.unregister_session` on every one of these
exits. -/
def processBookingJob (jobId : String) (outcome : AutomationOutcome)
    (retries maxRetries : Nat) (sessions : List String) : ProcessResult :=
  let registered := registerSession sessions jobId
  let body : JobExit × JobStatus :=
    match outcome with
    | .success => (.returned true false, .completed)
    | .browserError _ => (.returned false false, .failed)
    | .authenticationError _ => (.returned false false, .failed)
    | .bookingError _ => (.returned false false, .failed)
    | .unexpectedError _ =>
      if retries < maxRetries then (.raisedRetry, .failed)
      else (.returned false true, .failed)
  { exit := body.1
    finalStatus := body.2
    sessions := unregisterSession registered jobId
    driverCleaned := true }

/-- C8: every exit path of `process_booking_job` — successful completion,
an expected automation error, and an unexpected error with retries
exhausted — cleans up the browser driver and unregisters the job's session,
so a finished job never leaves its session registered; the success path ends
COMPLETED and the two failure paths end FAILED with the stated exit flags. -/
theorem C8_cleanup_on_exit :
    (∀ jobId outcome retries maxRetries sessions,
      jobId ∉ (processBookingJob jobId outcome retries maxRetries sessions).sessions ∧
      (processBookingJob jobId outcome retries maxRetries sessions).driverCleaned = true) ∧
    (∀ jobId retries maxRetries sessions,
      (processBookingJob jobId .success retries maxRetries sessions).exit =
        .returned true false ∧
      (processBookingJob jobId .success retries maxRetries sessions).finalStatus =
        .completed) ∧
    (∀ jobId msg retries maxRetries sessions,
      (processBookingJob jobId (.browserError msg) retries maxRetries sessions).exit =
        .returned false false ∧
      (processBookingJob jobId (.authenticationError msg) retries maxRetries
          sessions).exit = .returned false false ∧
      (processBookingJob jobId (.bookingError msg) retries maxRetries
          sessions).exit = .returned false false ∧
      (processBookingJob jobId (.browserError msg) retries maxRetries
          sessions).finalStatus = .failed) ∧
    (∀ jobId msg retries maxRetries sessions, maxRetries ≤ retries →
      (processBookingJob jobId (.unexpectedError msg) retries maxRetries
          sessions).exit = .returned false true ∧
      (processBookingJob jobId (.unexpectedError msg) retries maxRetries
          sessions).finalStatus = .failed) := by
  refine ⟨?_, ?_, ?_, ?_⟩
  · intro jobId outcome retries maxRetries sessions
    constructor
    · simp [processBookingJob, unregisterSession, List.mem_filter]
    · rfl
  · intro jobId retries maxRetries sessions
    exact ⟨rfl, rfl⟩
  · intro jobId msg retries maxRetries sessions
    exact ⟨rfl, rfl, rfl, rfl⟩
  · intro jobId msg retries maxRetries sessions h
    have hn : ¬ retries < maxRetries := Nat.not_lt.mpr h
    constructor
    · simp [processBookingJob, hn]
    · simp [processBookingJob, hn]

/-- Witness for C8 at concrete inputs: a job with an unexpected error and
retries exhausted (3 of 3) leaves no session registered, has its driver
cleaned, and returns failure with `retries_exhausted`. -/
theorem C8_cleanup_on_exit_witness :
    ("j1" ∉ (processBookingJob "j1" (.unexpectedError "boom") 3 3 ["j0"]).sessions ∧
      (processBookingJob "j1" (.unexpectedError "boom") 3 3 ["j0"]).driverCleaned = true) ∧
    (processBookingJob "j1" (.unexpectedError "boom") 3 3 ["j0"]).exit =
      .returned false true := by
  refine ⟨C8_cleanup_on_exit.1 "j1" (.unexpectedError "boom") 3 3 ["j0"], ?_⟩
  exact (C8_cleanup_on_exit.2.2.2 "j1" "boom" 3 3 ["j0"] (by decide)).1

/-- The outcome of one HTTP POST as seen by the webhook clients: a response
with a status code, a network/timeout error (`httpx.ConnectTimeout`,
`httpx.ReadTimeout`, `httpx.ConnectError`), or any other exception. -/
inductive HttpOutcome where
  | status (code : Nat)
  | netError (msg : String)
  | otherError (msg : String)
deriving DecidableEq, Repr

/-- `response.is_success` in httpx: a 2xx status code. -/
def isSuccessStatus (c : Nat) : Bool := 200 ≤ c && c < 300

/-- The 4xx client-error band that `WebhookClient.send_webhook` refuses to
retry. -/
def isClientErrorStatus (c : Nat) : Bool := 400 ≤ c && c < 500

/-- An outcome that `WebhookClient.send_webhook` treats as retryable:
any exception, or a response that is neither 2xx nor 4xx. -/
def retryableOutcome : HttpOutcome → Bool
  | .status c => !(isSuccessStatus c) && !(isClientErrorStatus c)
  | .netError _ => true
  | .otherError _ => true

/-- The observable trace of one `WebhookClient.send_webhook` call: the
`success` / `status_code` / `retries_exhausted` fields of the returned
dictionary, the number of HTTP requests performed, and the backoff sleeps
(in seconds) performed between attempts, in order. -/
structure SendTrace where
  success : Bool
  statusCode : Option Nat
  retriesExhausted : Bool
  requests : Nat
  sleeps : List Nat
deriving DecidableEq, Repr

/-- The retry loop of `app/utils/notifications.py`,
`WebhookClient.send_webhook` (`for attempt in range(max_retries + 1)`).
`attempt` is the current attempt index, `left` the number of attempts still
allowed after this one; the HTTP POST of attempt `i` yields `resp i`.
A 2xx response returns success at once; a 4xx response returns failure at
once with no retry; any other status or any exception falls through to the
backoff `min(2 ** attempt, 30)` and the next attempt while attempts remain,
and to the `retries_exhausted` failure dictionary afterwards. -/
def clientLoop (resp : Nat → HttpOutcome) (attempt : Nat) : Nat → SendTrace
  | 0 =>
    match resp attempt with
    | .status c =>
      if isSuccessStatus c then
        { success := true, statusCode := some c, retriesExhausted := false
          requests := 1, sleeps := [] }
      else if isClientErrorStatus c then
        { success := false, statusCode := some c, retriesExhausted := false
          requests := 1, sleeps := [] }
      else
        { success := false, statusCode := none, retriesExhausted := true
          requests := 1, sleeps := [] }
    | .netError _ =>
        { success := false, statusCode := none, retriesExhausted := true
          requests := 1, sleeps := [] }
    | .otherError _ =>
        { success := false, statusCode := none, retriesExhausted := true
          requests := 1, sleeps := [] }
  | left + 1 =>
    match resp attempt with
    | .status c =>
      if isSuccessStatus c then
        { success := true, statusCode := some c, retriesExhausted := false
          requests := 1, sleeps := [] }
      else if isClientErrorStatus c then
        { success := false, statusCode := some c, retriesExhausted := false
          requests := 1, sleeps := [] }
      else
        let t := clientLoop resp (attempt + 1) left
        { t with requests := t.requests + 1
                 sleeps := min (2 ^ attempt) 30 :: t.sleeps }
    | .netError _ =>
        let t := clientLoop resp (attempt + 1) left
        { t with requests := t.requests + 1
                 sleeps := min (2 ^ attempt) 30 :: t.sleeps }
    | .otherError _ =>
        let t := clientLoop resp (attempt + 1) left
        { t with requests := t.requests + 1
                 sleeps := min (2 ^ attempt) 30 :: t.sleeps }

/-- `WebhookClient.send_webhook` with retry budget `max_retries`
(default 3): the loop starts at attempt 0 with `max_retries` further
attempts allowed. -/
def sendWebhookClient (resp : Nat → HttpOutcome) (maxRetries : Nat) : SendTrace :=
  clientLoop resp 0 maxRetries

/-- The observable trace of one `WebhookManager.send_webhook` call
(`app/utils/webhooks.py`): the returned boolean, the number of HTTP requests
performed, and the sleeps performed. -/
structure ManagerTrace where
  delivered : Bool
  requests : Nat
  sleeps : List Nat
deriving DecidableEq, Repr

/-- The retry loop of `app/utils/webhooks.py`, `WebhookManager.send_webhook`
(`for attempt in range(self.max_retries)`, `max_retries = 3`): a response in
{200, 201, 202} returns True at once; ANY other status code merely falls
through to the next attempt with no sleep; an exception sleeps
`2 ** attempt` while `attempt < self.max_retries - 1`; when the loop ends
without a 2xx the call returns False. -/
def managerLoop (resp : Nat → HttpOutcome) (attempt : Nat) : Nat → ManagerTrace
  | 0 => { delivered := false, requests := 0, sleeps := [] }
  | left + 1 =>
    match resp attempt with
    | .status c =>
      if c == 200 || c == 201 || c == 202 then
        { delivered := true, requests := 1, sleeps := [] }
      else
        let t := managerLoop resp (attempt + 1) left
        { t with requests := t.requests + 1 }
    | .netError _ =>
        let t := managerLoop resp (attempt + 1) left
        if left == 0 then { t with requests := t.requests + 1 }
        else { t with requests := t.requests + 1, sleeps := 2 ^ attempt :: t.sleeps }
    | .otherError _ =>
        let t := managerLoop resp (attempt + 1) left
        if left == 0 then { t with requests := t.requests + 1 }
        else { t with requests := t.requests + 1, sleeps := 2 ^ attempt :: t.sleeps }

/-- `WebhookManager.send_webhook` runs its loop over
`range(self.max_retries)` with `self.max_retries = 3`. -/
def sendWebhookManager (resp : Nat → HttpOutcome) : ManagerTrace :=
  managerLoop resp 0 3

/-- C2 as stated is false on `app/utils/webhooks.py`: a mock endpoint that
always answers 404 is called three times by `WebhookManager.send_webhook`,
not exactly once — the manager retries every non-2xx status. -/
theorem C2_counterexample :
    (sendWebhookManager (fun _ => .status 404)).requests = 3 ∧
    ¬ (sendWebhookManager (fun _ => .status 404)).requests = 1 := by
  constructor
  · rfl
  · decide

/-- C2 amended: `WebhookClient.send_webhook` (`app/utils/notifications.py`)
performs exactly one HTTP request on a 4xx response and returns the failure
dictionary immediately, with no retry and no backoff sleep; but
`WebhookManager.send_webhook` (`app/utils/webhooks.py`) does not single out
4xx — it keeps retrying any non-2xx status up to its 3 attempts (without
sleeping between such attempts) and then returns False. -/
theorem C2_no_retry_on_4xx :
    (∀ resp maxRetries c, resp 0 = .status c → isClientErrorStatus c = true →
      sendWebhookClient resp maxRetries =
        { success := false, statusCode := some c, retriesExhausted := false
          requests := 1, sleeps := [] }) ∧
    (∀ resp, (∀ i, resp i = .status 404) →
      sendWebhookManager resp = { delivered := false, requests := 3, sleeps := [] }) := by
  constructor
  · intro resp maxRetries c h0 hc
    have hns : isSuccessStatus c = false := by
      simp only [isClientErrorStatus, Bool.and_eq_true, decide_eq_true_eq] at hc
      simp [isSuccessStatus]
      omega
    cases maxRetries with
    | zero => simp [sendWebhookClient, clientLoop, h0, hns, hc]
    | succ k => simp [sendWebhookClient, clientLoop, h0, hns, hc]
  · intro resp h
    simp [sendWebhookManager, managerLoop, h 0, h 1, h 2]

/-- Witness for C2 amended at concrete inputs: a constant-404 endpoint gets
exactly one request from the client (budget 3) and three requests from the
manager. -/
theorem C2_no_retry_on_4xx_witness :
    sendWebhookClient (fun _ => .status 404) 3 =
      { success := false, statusCode := some 404, retriesExhausted := false
        requests := 1, sleeps := [] } ∧
    sendWebhookManager (fun _ => .status 404) =
      { delivered := false, requests := 3, sleeps := [] } := by
  constructor
  · exact C2_no_retry_on_4xx.1 (fun _ => .status 404) 3 404 rfl (by decide)
  · exact C2_no_retry_on_4xx.2 (fun _ => .status 404) (fun _ => rfl)

/-- When every attempt's outcome is retryable (5xx or exception), the client
loop performs one request per allowed attempt, sleeps
`min(2 ** attempt, 30)` between consecutive attempts, and ends in the
`retries_exhausted` failure dictionary. -/
theorem clientLoop_all_retryable (resp : Nat → HttpOutcome)
    (h : ∀ i, retryableOutcome (resp i) = true) :
    ∀ left attempt, clientLoop resp attempt left =
      { success := false, statusCode := none, retriesExhausted := true
        requests := left + 1
        sleeps := (List.range left).map (fun i => min (2 ^ (attempt + i)) 30) } := by
  intro left
  induction left with
  | zero =>
    intro attempt
    cases hr : resp attempt with
    | status c =>
      have hx := h attempt
      rw [hr] at hx
      simp only [retryableOutcome, Bool.and_eq_true, Bool.not_eq_true'] at hx
      simp [clientLoop, hr, hx.1, hx.2]
    | netError msg => simp [clientLoop, hr]
    | otherError msg => simp [clientLoop, hr]
  | succ k ih =>
    intro attempt
    have hsleeps : min (2 ^ attempt) 30 ::
        (List.range k).map (fun i => min (2 ^ (attempt + 1 + i)) 30) =
        (List.range (k + 1)).map (fun i => min (2 ^ (attempt + i)) 30) := by
      rw [List.range_succ_eq_map, List.map_cons, List.map_map]
      refine congrArg₂ _ (by rw [Nat.add_zero]) ?_
      refine List.map_congr_left ?_
      intro i _
      simp only [Function.comp]
      rw [show attempt + 1 + i = attempt + Nat.succ i by omega]
    cases hr : resp attempt with
    | status c =>
      have hx := h attempt
      rw [hr] at hx
      simp only [retryableOutcome, Bool.and_eq_true, Bool.not_eq_true'] at hx
      simp only [clientLoop, hr, hx.1, hx.2, Bool.false_eq_true, if_false]
      rw [ih (attempt + 1)]
      simp only [SendTrace.mk.injEq, true_and]
      exact hsleeps
    | netError msg =>
      simp only [clientLoop, hr]
      rw [ih (attempt + 1)]
      simp only [SendTrace.mk.injEq, true_and]
      exact hsleeps
    | otherError msg =>
      simp only [clientLoop, hr]
      rw [ih (attempt + 1)]
      simp only [SendTrace.mk.injEq, true_and]
      exact hsleeps

/-- C3 as stated is false on the attempt count: with the default retry
budget `max_retries = 3`, `WebhookClient.send_webhook` performs
`max_retries + 1 = 4` HTTP requests against an endpoint that always answers
500, not "up to 3 attempts in total". -/
theorem C3_counterexample :
    (sendWebhookClient (fun _ => .status 500) 3).requests = 4 ∧
    ¬ ((sendWebhookClient (fun _ => .status 500) 3).requests ≤ 3) := by
  constructor
  · rfl
  · decide

/-- C3 amended: `WebhookClient.send_webhook` retries only retryable outcomes
(HTTP 5xx-band statuses and exceptions), performing up to
`max_retries + 1 = 4` attempts in total for the default budget of 3,
sleeping `min(2 ** attempt, 30)` seconds between attempts (a non-decreasing
sequence capped at 30 seconds); after exhausting all retries it returns a
dictionary with success false and retries_exhausted true rather than
raising. -/
theorem C3_retry_exhaustion :
    ∀ resp maxRetries, (∀ i, retryableOutcome (resp i) = true) →
      sendWebhookClient resp maxRetries =
        { success := false, statusCode := none, retriesExhausted := true
          requests := maxRetries + 1
          sleeps := (List.range maxRetries).map (fun i => min (2 ^ i) 30) } ∧
      List.Chain' (· ≤ ·) (sendWebhookClient resp maxRetries).sleeps ∧
      (∀ s ∈ (sendWebhookClient resp maxRetries).sleeps, s ≤ 30) := by
  intro resp maxRetries h
  have htrace := clientLoop_all_retryable resp h maxRetries 0
  have htrace0 : sendWebhookClient resp maxRetries =
      { success := false, statusCode := none, retriesExhausted := true
        requests := maxRetries + 1
        sleeps := (List.range maxRetries).map (fun i => min (2 ^ i) 30) } := by
    rw [sendWebhookClient, htrace]
    simp
  refine ⟨htrace0, ?_, ?_⟩
  · rw [htrace0]
    cases maxRetries with
    | zero => simp
    | succ k =>
      rw [List.chain'_map]
      rw [List.chain'_range_succ]
      intro m _
      exact min_le_min (Nat.pow_le_pow_right (by omega) (by omega)) le_rfl
  · rw [htrace0]
    intro s hs
    simp only [List.mem_map] at hs
    obtain ⟨i, _, hi⟩ := hs
    rw [← hi]
    exact min_le_right _ _

/-- Witness for C3 amended at a concrete input: an endpoint that always
answers 500 yields 4 requests, the sleeps 1, 2, 4 (non-decreasing, all at
most 30) and the retries-exhausted failure dictionary. -/
theorem C3_retry_exhaustion_witness :
    sendWebhookClient (fun _ => .status 500) 3 =
      { success := false, statusCode := none, retriesExhausted := true
        requests := 4, sleeps := [1, 2, 4] } ∧
    List.Chain' (· ≤ ·) (sendWebhookClient (fun _ => .status 500) 3).sleeps := by
  have h := C3_retry_exhaustion (fun _ => .status 500) 3 (fun _ => rfl)
  exact ⟨h.1.trans (by decide), h.2.1⟩

/-- `settings.JOB_TIMEOUT` (`app/config.py`): 1800 seconds. -/
def jobTimeout : Int := 1800

/-- A job record as read by the cleanup task: the fields of the stored JSON
it inspects. -/
structure StaleScanJob where
  jobId : String
  status : JobStatus
  startedAt : Int
  updatedAt : Int
deriving DecidableEq, Repr

/-- The state scanned and mutated by `cleanup_stale_jobs`: the `job:*` keys
of the State Store and the `active_sessions` registry. -/
structure CleanupState where
  jobs : List (String × StaleScanJob)
  sessions : List String
deriving DecidableEq, Repr

/-- The staleness test of `app/workers/booking_worker.py`,
`cleanup_stale_jobs`: `started_at < cutoff_time` where
`cutoff_time = now - (settings.JOB_TIMEOUT + 600)`.  Note the test reads
`started_at`, not `updated_at`, and ignores the record's status. -/
def isStaleJob (now : Int) (j : StaleScanJob) : Bool :=
  j.startedAt < now - (jobTimeout + 600)

/-- `app/workers/booking_worker.py`, `cleanup_stale_jobs` (job-record scan):
every record with `started_at` older than the cutoff has its bound browser
session cleaned up and unregistered and its `job:{id}` key deleted outright;
records at or after the cutoff are left untouched.  No record is rewritten:
the scan only deletes. -/
def cleanupStaleJobs (now : Int) (st : CleanupState) : CleanupState × Nat :=
  let stale := st.jobs.filter (fun kv => isStaleJob now kv.2)
  ({ jobs := st.jobs.filter (fun kv => !(isStaleJob now kv.2))
     sessions :=
       st.sessions.filter (fun j => !(stale.any (fun kv => kv.2.jobId == j))) },
   stale.length)

/-- C4 as stated is false on the code in two ways, shown at one concrete
input: a RUNNING job whose `started_at` is past the cutoff but whose
`updated_at` is the current instant (updated well within the window) is
still reclaimed, and reclamation deletes the record outright — afterwards no
record for the job exists at all, so no FAILED/`stale_reclaimed` marking is
ever stored. -/
theorem C4_counterexample :
    (StaleScanJob.updatedAt ⟨"j1", .running, 0, 5000⟩ = 5000 ∧
      isStaleJob 5000 ⟨"j1", .running, 0, 5000⟩ = true) ∧
    (cleanupStaleJobs 5000
        ⟨[("job:j1", ⟨"j1", .running, 0, 5000⟩)], ["j1"]⟩).1.jobs = [] ∧
    (cleanupStaleJobs 5000
        ⟨[("job:j1", ⟨"j1", .running, 0, 5000⟩)], ["j1"]⟩).1.sessions = [] := by
  refine ⟨⟨rfl, ?_⟩, ?_, ?_⟩
  · decide
  · decide
  · decide

/-- C4 amended: the cleanup reclaims exactly those job records whose
`started_at` (not `updated_at`) is older than `JOB_TIMEOUT` plus the
600-second grace period: each such record's bound session is cleaned up and
its key deleted (the record is not marked FAILED — it is removed), and a
record started within the window is kept verbatim, never modified. -/
theorem C4_stale_cleanup :
    ∀ now st,
      (∀ kv, kv ∈ (cleanupStaleJobs now st).1.jobs ↔
        kv ∈ st.jobs ∧ isStaleJob now kv.2 = false) ∧
      (∀ s, s ∈ (cleanupStaleJobs now st).1.sessions ↔
        s ∈ st.sessions ∧
          ∀ kv ∈ st.jobs, isStaleJob now kv.2 = true → kv.2.jobId ≠ s) ∧
      (cleanupStaleJobs now st).2 =
        (st.jobs.filter (fun kv => isStaleJob now kv.2)).length := by
  intro now st
  refine ⟨?_, ?_, rfl⟩
  · intro kv
    simp [cleanupStaleJobs, List.mem_filter]
  · intro s
    simp only [cleanupStaleJobs, List.mem_filter, Bool.not_eq_true',
      List.any_eq_false, List.mem_filter]
    constructor
    · rintro ⟨hs, hall⟩
      refine ⟨hs, ?_⟩
      intro kv hkv hstale heq
      have := hall kv ⟨hkv, hstale⟩
      simp [heq] at this
    · rintro ⟨hs, hall⟩
      refine ⟨hs, ?_⟩
      rintro kv ⟨hkv, hstale⟩
      have := hall kv hkv hstale
      simp [this]

/-- Witness for C4 amended at a concrete input: with one stale job and one
fresh job, the stale record and its session are reclaimed while the fresh
record and its session survive. -/
theorem C4_stale_cleanup_witness :
    (("job:j2", (⟨"j2", .running, 4000, 4000⟩ : StaleScanJob)) ∈
        (cleanupStaleJobs 5000
          ⟨[("job:j1", ⟨"j1", .running, 0, 0⟩),
            ("job:j2", ⟨"j2", .running, 4000, 4000⟩)], ["j1", "j2"]⟩).1.jobs ↔
      (("job:j2", (⟨"j2", .running, 4000, 4000⟩ : StaleScanJob)) ∈
          [("job:j1", (⟨"j1", .running, 0, 0⟩ : StaleScanJob)),
           ("job:j2", ⟨"j2", .running, 4000, 4000⟩)] ∧
        isStaleJob 5000 ⟨"j2", .running, 4000, 4000⟩ = false)) ∧
    (cleanupStaleJobs 5000
        ⟨[("job:j1", ⟨"j1", .running, 0, 0⟩),
          ("job:j2", ⟨"j2", .running, 4000, 4000⟩)], ["j1", "j2"]⟩).2 = 1 := by
  constructor
  · exact (C4_stale_cleanup 5000
      ⟨[("job:j1", ⟨"j1", .running, 0, 0⟩),
        ("job:j2", ⟨"j2", .running, 4000, 4000⟩)], ["j1", "j2"]⟩).1
      ("job:j2", ⟨"j2", .running, 4000, 4000⟩)
  · exact ((C4_stale_cleanup 5000
      ⟨[("job:j1", ⟨"j1", .running, 0, 0⟩),
        ("job:j2", ⟨"j2", .running, 4000, 4000⟩)], ["j1", "j2"]⟩).2.2).trans
      (by decide)

/-- Truncation to a 32-bit word (all SHA-256 arithmetic is modulo 2^32). -/
def w32 (n : Nat) : Nat := n % 4294967296

/-- 32-bit right rotation. -/
def rotr32 (x k : Nat) : Nat := w32 ((x >>> k) ||| (x <<< (32 - k)))

/-- SHA-256 choice function. -/
def shaCh (x y z : Nat) : Nat := (x &&& y) ^^^ ((x ^^^ 4294967295) &&& z)

/-- SHA-256 majority function. -/
def shaMaj (x y z : Nat) : Nat := (x &&& y) ^^^ (x &&& z) ^^^ (y &&& z)

/-- SHA-256 big sigma 0. -/
def bigSigma0 (x : Nat) : Nat := rotr32 x 2 ^^^ rotr32 x 13 ^^^ rotr32 x 22

/-- SHA-256 big sigma 1. -/
def bigSigma1 (x : Nat) : Nat := rotr32 x 6 ^^^ rotr32 x 11 ^^^ rotr32 x 25

/-- SHA-256 small sigma 0. -/
def smallSigma0 (x : Nat) : Nat := rotr32 x 7 ^^^ rotr32 x 18 ^^^ (x >>> 3)

/-- SHA-256 small sigma 1. -/
def smallSigma1 (x : Nat) : Nat := rotr32 x 17 ^^^ rotr32 x 19 ^^^ (x >>> 10)

/-- The SHA-256 round constants. -/
def shaK : List Nat :=
  [1116352408, 1899447441, 3049323471, 3921009573, 961987163,
   1508970993, 2453635748, 2870763221, 3624381080, 310598401,
   607225278, 1426881987, 1925078388, 2162078206, 2614888103,
   3248222580, 3835390401, 4022224774, 264347078, 604807628,
   770255983, 1249150122, 1555081692, 1996064986, 2554220882,
   2821834349, 2952996808, 3210313671, 3336571891, 3584528711,
   113926993, 338241895, 666307205, 773529912, 1294757372,
   1396182291, 1695183700, 1986661051, 2177026350, 2456956037,
   2730485921, 2820302411, 3259730800, 3345764771, 3516065817,
   3600352804, 4094571909, 275423344, 430227734, 506948616,
   659060556, 883997877, 958139571, 1322822218, 1537002063,
   1747873779, 1955562222, 2024104815, 2227730452, 2361852424,
   2428436474, 2756734187, 3204031479, 3329325298]

/-- The SHA-256 initial hash value. -/
def shaH0 : List Nat :=
  [1779033703, 3144134277, 1013904242, 2773480762, 1359893119,
   2600822924, 528734635, 1541459225]

/-- Extends a 16-word message block to the 64-word schedule, one word per
step. -/
def extendSchedule (ws : List Nat) : Nat → List Nat
  | 0 => ws
  | n + 1 =>
    let t := ws.length
    extendSchedule
      (ws ++ [w32 (smallSigma1 (ws.getD (t - 2) 0) + ws.getD (t - 7) 0 +
        smallSigma0 (ws.getD (t - 15) 0) + ws.getD (t - 16) 0)]) n

/-- One SHA-256 compression round on the working variables
`[a, b, c, d, e, f, g, h]`. -/
def shaRound (st : List Nat) (k : Nat) (w : Nat) : List Nat :=
  match st with
  | [a, b, c, d, e, f, g, h] =>
    let t1 := w32 (h + bigSigma1 e + shaCh e f g + k + w)
    let t2 := w32 (bigSigma0 a + shaMaj a b c)
    [w32 (t1 + t2), a, b, c, w32 (d + t1), e, f, g]
  | other => other

/-- SHA-256 compression of one 16-word block into the running hash. -/
def compressBlock (h : List Nat) (blockWords : List Nat) : List Nat :=
  let ws := extendSchedule blockWords 48
  let st := (shaK.zip ws).foldl (fun st kw => shaRound st kw.1 kw.2) h
  (h.zip st).map (fun p => w32 (p.1 + p.2))

/-- Big-endian packing of bytes into 32-bit words. -/
def bytesToWords : List Nat → List Nat
  | b0 :: b1 :: b2 :: b3 :: rest =>
    (b0 * 16777216 + b1 * 65536 + b2 * 256 + b3) :: bytesToWords rest
  | _ => []

/-- Big-endian 64-bit encoding of a length in bits. -/
def lenBytes64 (n : Nat) : List Nat :=
  [(n >>> 56) % 256, (n >>> 48) % 256, (n >>> 40) % 256, (n >>> 32) % 256,
   (n >>> 24) % 256, (n >>> 16) % 256, (n >>> 8) % 256, n % 256]

/-- SHA-256 padding: a 0x80 byte, zeros to 56 mod 64, and the bit length. -/
def padMessage (msg : List Nat) : List Nat :=
  msg ++ 128 :: List.replicate ((119 - msg.length % 64) % 64) 0 ++
    lenBytes64 (8 * msg.length)

/-- Splits a byte list into 64-byte blocks; the fuel argument (at least the
list length) makes the recursion structural. -/
def chunk64Fuel : Nat → List Nat → List (List Nat)
  | 0, _ => []
  | _, [] => []
  | fuel + 1, b :: rest => ((b :: rest).take 64) :: chunk64Fuel fuel ((b :: rest).drop 64)

/-- Splits a byte list into 64-byte blocks. -/
def chunk64 (l : List Nat) : List (List Nat) := chunk64Fuel l.length l

/-- SHA-256 of a byte list, as eight 32-bit words. -/
def sha256Words (msg : List Nat) : List Nat :=
  (chunk64 (padMessage msg)).foldl
    (fun h block => compressBlock h (bytesToWords block)) shaH0

/-- Big-endian unpacking of 32-bit words into bytes. -/
def wordsToBytes (ws : List Nat) : List Nat :=
  ws.foldr (fun w acc =>
    (w >>> 24) % 256 :: (w >>> 16) % 256 :: (w >>> 8) % 256 :: w % 256 :: acc) []

/-- SHA-256 of a byte list, as a 32-byte digest. -/
def sha256Bytes (msg : List Nat) : List Nat := wordsToBytes (sha256Words msg)

/-- HMAC-SHA256 over byte lists (Python's `hmac.new(secret, payload,
hashlib.sha256)` with block size 64). -/
def hmacSha256 (key msg : List Nat) : List Nat :=
  let k0 := if 64 < key.length then sha256Bytes key else key
  let kp := k0 ++ List.replicate (64 - k0.length) 0
  sha256Bytes ((kp.map (fun b => b ^^^ 92)) ++
    sha256Bytes ((kp.map (fun b => b ^^^ 54)) ++ msg))

/-- Lower-case hexadecimal digit. -/
def hexDigitChar (n : Nat) : Char :=
  if n < 10 then Char.ofNat (48 + n) else Char.ofNat (87 + n)

/-- Lower-case hexadecimal rendering of a byte list (`.hexdigest()`). -/
def hexOfBytes (bs : List Nat) : List Char :=
  bs.foldr (fun b acc => hexDigitChar (b / 16 % 16) :: hexDigitChar (b % 16) :: acc) []

/-- The signature scheme tag prepended by `_create_signature`. -/
def sha256Tag : List Char := ['s', 'h', 'a', '2', '5', '6', '=']

/-- `app/utils/notifications.py`, `WebhookClient._create_signature`:
`"sha256=" + hmac.new(secret, payload, sha256).hexdigest()`.  Payload and
secret are the UTF-8 byte lists the source obtains with `.encode('utf-8')`. -/
def createSignature (payload secret : List Nat) : List Char :=
  sha256Tag ++ hexOfBytes (hmacSha256 secret payload)

/-- `app/utils/notifications.py`, `verify_webhook_signature`: a signature
that does not start with "sha256=" is rejected with False; otherwise the
part after the 7-character tag is compared (`hmac.compare_digest`) with the
expected hex digest of the payload under the secret. -/
def verifyWebhookSignature (payload : List Nat) (signature : List Char)
    (secret : List Nat) : Bool :=
  if signature.take 7 == sha256Tag then
    signature.drop 7 == hexOfBytes (hmacSha256 secret payload)
  else false

/-- C10: verifying the signature produced by the HMAC signing function over
the same payload and secret always succeeds (sign/verify round-trip), and
`verify_webhook_signature` returns False — it never raises, being a total
function — for any signature that does not begin with "sha256=". -/
theorem C10_signature_roundtrip :
    (∀ payload secret : List Nat,
      verifyWebhookSignature payload (createSignature payload secret) secret = true) ∧
    (∀ (payload secret : List Nat) (signature : List Char),
      (signature.take 7 == sha256Tag) = false →
      verifyWebhookSignature payload signature secret = false) := by
  constructor
  · intro payload secret
    have hlen : sha256Tag.length = 7 := rfl
    have htake : (sha256Tag ++ hexOfBytes (hmacSha256 secret payload)).take 7 =
        sha256Tag := by
      rw [← hlen, List.take_left]
    have hdrop : (sha256Tag ++ hexOfBytes (hmacSha256 secret payload)).drop 7 =
        hexOfBytes (hmacSha256 secret payload) := by
      rw [← hlen, List.drop_left]
    simp [verifyWebhookSignature, createSignature, htake, hdrop]
  · intro payload secret signature h
    simp only [verifyWebhookSignature]
    rw [h]
    rfl

/-- Witness for C10 at a concrete input: the signature "md5=x" (which does
not start with "sha256=") is rejected for the empty payload and secret. -/
theorem C10_signature_roundtrip_witness :
    verifyWebhookSignature [] ['m', 'd', '5', '=', 'x'] [] = false := by
  exact C10_signature_roundtrip.2 [] [] ['m', 'd', '5', '=', 'x'] (by decide)
